import Mathlib

/-!
Verification of the iOS FFI layer of this matrix-rust-sdk fork
(`crates/matrix-sdk-ffi/src/ios.rs` and `ios/room.rs`).

The embedding models:
* `ClientState` (ios.rs 51-61) and the accessor methods (ios.rs 214-226);
* the per-cycle body of the sync callback passed to `sync_with_callback`
  in `Client::start_sync` (ios.rs 188-210), both as a state transformer
  and as an ordered event trace;
* the per-room listener flag protocol of `Room::start_live_event_listener`
  and `Room::stop_live_event_listener` (ios/room.rs 84-119), with the set
  of live spawned listener tasks abstracted to a count;
* the listener task loop body (ios/room.rs 99-113) as a function of the
  finite list of items the forward stream yields, with the flag and the
  registered delegate sampled at each loop iteration;
* the restore-token codec (`Client::restore_token` ios.rs 228-236,
  `login_with_token` ios.rs 305-316) including a model of the
  `serde_json` string serialization it delegates to;
* the guest-registration construction flow `guest_client`
  (ios.rs 286-303) with its failure modes, distinguishing errors returned
  through `Result` from Rust panics raised by `.expect(...)`.
-/

/-- `ClientState`, ios.rs 51-61. All four fields default to `false`
(`derive(Default)`), as used by `ClientStateBuilder::default()`. -/
structure ClientState where
  is_guest : Bool
  has_first_synced : Bool
  is_syncing : Bool
  should_stop_syncing : Bool
deriving DecidableEq, Repr

/-- The all-false state built by `ClientStateBuilder::default().build()`. -/
def ClientState.default : ClientState :=
  ⟨false, false, false, false⟩

/-- `Client::has_first_synced`, ios.rs 214-216: read lock, copy the
`has_first_synced` field. -/
def Client.has_first_synced (s : ClientState) : Bool :=
  s.has_first_synced

/-- `Client::is_syncing`, ios.rs 218-221. NOTE: the source body is
`self.state.read().has_first_synced` — it copies the `has_first_synced`
field, not the `is_syncing` field, despite its own doc comment
"Indication whether we are currently syncing". -/
def Client.is_syncing (s : ClientState) : Bool :=
  s.has_first_synced

/-- `Client::is_guest`, ios.rs 223-226: read lock, copy `is_guest`. -/
def Client.is_guest (s : ClientState) : Bool :=
  s.is_guest

/-- `LoopCtrl` from matrix-sdk, as returned by the sync callback. -/
inductive LoopCtrl where
  | Continue
  | Break
deriving DecidableEq, Repr

/-- One execution of the callback body inside `Client::start_sync`
(ios.rs 192-207), as a state transformer on `ClientState` together with
the returned `LoopCtrl`. Mirrors the source order: first the
`has_first_synced` update guarded by its own read, then the
`should_stop_syncing` check (write `is_syncing := false` and `Break`),
else the guarded write `is_syncing := true` and `Continue`. -/
def syncCycle (s : ClientState) : ClientState × LoopCtrl :=
  let s1 := if !s.has_first_synced then { s with has_first_synced := true } else s
  if s1.should_stop_syncing then
    ({ s1 with is_syncing := false }, LoopCtrl.Break)
  else if !s1.is_syncing then
    ({ s1 with is_syncing := true }, LoopCtrl.Continue)
  else
    (s1, LoopCtrl.Continue)

/-- Observable events of one sync cycle, in order: the engine round-trip
that precedes the callback, the delegate notification, and the individual
field writes the callback performs. -/
inductive SyncEvent where
  | syncRoundTrip
  | notifyDelegate
  | writeHasFirstSynced (b : Bool)
  | writeIsSyncing (b : Bool)
deriving DecidableEq, Repr

/-- Event trace of one sync cycle as the source performs it
(ios.rs 192-207): the round-trip happens before the callback runs
(`sync_with_callback` invokes the callback once per successful response),
the callback then calls `delegate.did_receive_sync_update()` first, then
performs its guarded field writes in source order. -/
def syncCycleTrace (s : ClientState) : List SyncEvent × LoopCtrl :=
  let pre := [SyncEvent.syncRoundTrip, SyncEvent.notifyDelegate]
  let w1 := if !s.has_first_synced then [SyncEvent.writeHasFirstSynced true] else []
  if s.should_stop_syncing then
    (pre ++ w1 ++ [SyncEvent.writeIsSyncing false], LoopCtrl.Break)
  else if !s.is_syncing then
    (pre ++ w1 ++ [SyncEvent.writeIsSyncing true], LoopCtrl.Continue)
  else
    (pre ++ w1, LoopCtrl.Continue)

/-- Effect of a single sync event on the shared state. -/
def applyEvent (s : ClientState) : SyncEvent → ClientState
  | SyncEvent.syncRoundTrip => s
  | SyncEvent.notifyDelegate => s
  | SyncEvent.writeHasFirstSynced b => { s with has_first_synced := b }
  | SyncEvent.writeIsSyncing b => { s with is_syncing := b }

/-- Effect of a list of sync events, applied left to right. -/
def applyEvents (s : ClientState) (es : List SyncEvent) : ClientState :=
  es.foldl applyEvent s

/-- Operations of the system that touch a `ClientState` after
construction. `syncCycleOp` is the sync-callback body (ios.rs 192-207);
the accessors (ios.rs 214-226) and `restore_token` (ios.rs 228-236) only
take the read lock and leave the state unchanged. No other code in the
repository writes to a `ClientState`. -/
inductive ClientOp where
  | syncCycleOp
  | hasFirstSyncedOp
  | isSyncingOp
  | isGuestOp
  | restoreTokenOp
deriving DecidableEq, Repr

/-- State effect of each operation. -/
def applyOp (s : ClientState) : ClientOp → ClientState
  | ClientOp.syncCycleOp => (syncCycle s).1
  | ClientOp.hasFirstSyncedOp => s
  | ClientOp.isSyncingOp => s
  | ClientOp.isGuestOp => s
  | ClientOp.restoreTokenOp => s

/-- Run a sequence of operations against a `ClientState`. -/
def runOps (s : ClientState) (ops : List ClientOp) : ClientState :=
  ops.foldl applyOp s

/-- Modelled from the spec: the backward-stream cursor handle wrapped by
`BackwardsStream::new` in ios/room.rs 114 (the `backward_stream` module is
not in the source sample). Its internals are irrelevant to the claims;
only its presence or absence in the return value matters. -/
structure BackwardsStream where
  mk ::
deriving DecidableEq, Repr

/-- Listener-related state of one `Room` handle (ios/room.rs 19-23).
`is_listening_to_live_events` is the `Arc<RwLock<bool>>` flag.
`activeTasks` abstracts the set of listener tasks spawned by
`start_live_event_listener` (ios/room.rs 99) that have not yet returned:
it is not a field of the Rust struct but counts the live tasks so that
"spawns a task" and "the task terminates" are visible in the model. -/
structure RoomListenerState where
  is_listening_to_live_events : Bool
  activeTasks : Nat
deriving DecidableEq, Repr

/-- `Room::start_live_event_listener`, ios/room.rs 84-115: if the flag is
already true, return `None` and change nothing; otherwise set the flag,
spawn the forward-stream consumer task, and return the backward-stream
handle. -/
def start_live_event_listener (r : RoomListenerState) :
    Option BackwardsStream × RoomListenerState :=
  if r.is_listening_to_live_events then
    (none, r)
  else
    (some BackwardsStream.mk,
      { is_listening_to_live_events := true, activeTasks := r.activeTasks + 1 })

/-- `Room::stop_live_event_listener`, ios/room.rs 117-119: write `false`
into the flag; the running task is not touched. -/
def stop_live_event_listener (r : RoomListenerState) : RoomListenerState :=
  { r with is_listening_to_live_events := false }

/-- A listener task returning because it read the flag as `false`
(ios/room.rs 103-105): the task exits, the flag is left as it is. -/
def listener_task_observes_stop (r : RoomListenerState) : RoomListenerState :=
  { r with activeTasks := r.activeTasks - 1 }

/-- A listener task returning because `forward_stream.next()` yielded
`None` (the `while let` loop of ios/room.rs 102-112 ends): the task exits
and nothing in the source resets the flag on this path. -/
def listener_task_stream_ended (r : RoomListenerState) : RoomListenerState :=
  { r with activeTasks := r.activeTasks - 1 }

/-- The listener task loop of ios/room.rs 99-113, run over the finite
list of items the forward stream yields. `decode` stands for
`sync_event_to_message` (modelled from the spec: `ios/messages.rs` is not
in the source sample, so the decoder is kept abstract as a partial
function to a recognized message kind). `flagAt n` is the value the task
reads from `is_listening_to_live_events` at iteration `n`, and
`delegateAt n` whether a delegate is registered then. Each iteration
first awaits the next item, then returns if the flag is false (the
pending item is drained but not processed), else decodes and, when a
delegate is registered, delivers. The result is the ordered list of
messages passed to `delegate.did_receive_message`. -/
def listenerRun {α β : Type} (decode : α → Option β) (flagAt delegateAt : Nat → Bool) :
    List α → Nat → List β
  | [], _ => []
  | i :: rest, n =>
    if flagAt n = false then
      []
    else
      (if delegateAt n then (decode i).toList else []) ++
        listenerRun decode flagAt delegateAt rest (n + 1)

/-- Same loop, additionally counting how many items were drained from the
forward stream (an item is drained by `next().await` even when the flag
check then terminates the task without processing it). -/
def listenerRunCount {α β : Type} (decode : α → Option β) (flagAt delegateAt : Nat → Bool) :
    List α → Nat → List β × Nat
  | [], _ => ([], 0)
  | i :: rest, n =>
    if flagAt n = false then
      ([], 1)
    else
      let p := listenerRunCount decode flagAt delegateAt rest (n + 1)
      ((if delegateAt n then (decode i).toList else []) ++ p.1, p.2 + 1)

/-- Hexadecimal digit characters as emitted by serde_json
(lowercase, table "0123456789abcdef"). -/
def hexDigit (n : Nat) : Char :=
  if n < 10 then Char.ofNat (48 + n) else Char.ofNat (87 + n)

/-- Inverse of `hexDigit`, accepting the digits the serde_json deserializer
accepts (0-9, a-f, A-F). -/
def fromHexDigit (c : Char) : Option Nat :=
  if 48 ≤ c.toNat ∧ c.toNat ≤ 57 then some (c.toNat - 48)
  else if 97 ≤ c.toNat ∧ c.toNat ≤ 102 then some (c.toNat - 87)
  else if 65 ≤ c.toNat ∧ c.toNat ≤ 70 then some (c.toNat - 55)
  else none

/-- JSON string escaping of one character as the serde_json serializer does
it: quote and backslash get a two-character escape, the five control
characters with short names get theirs, the remaining control characters
below 0x20 get a six-character \u00XX escape, and everything else is
passed through. -/
def escapeChar (c : Char) : List Char :=
  if c = '\"' then ['\\', '\"']
  else if c = '\\' then ['\\', '\\']
  else if c = Char.ofNat 8 then ['\\', 'b']
  else if c = '\t' then ['\\', 't']
  else if c = '\n' then ['\\', 'n']
  else if c = Char.ofNat 12 then ['\\', 'f']
  else if c = '\r' then ['\\', 'r']
  else if c.toNat < 32 then
    ['\\', 'u', '0', '0', hexDigit (c.toNat / 16), hexDigit (c.toNat % 16)]
  else [c]

/-- JSON string escaping of a character list. -/
def escapeList : List Char → List Char
  | [] => []
  | c :: cs => escapeChar c ++ escapeList cs

/-- Parse the body of a JSON string literal (the opening quote already
consumed) up to and including the closing quote, undoing the escapes;
returns the decoded content and the remaining input. Mirrors the serde_json
string deserializer on the escapes it defines. -/
def parseStringBody : List Char → Option (List Char × List Char)
  | [] => none
  | c :: rest =>
    if c = '\"' then some ([], rest)
    else if c = '\\' then
      match rest with
      | [] => none
      | e :: rest2 =>
        if e = '\"' then (parseStringBody rest2).map (fun p => ('\"' :: p.1, p.2))
        else if e = '\\' then (parseStringBody rest2).map (fun p => ('\\' :: p.1, p.2))
        else if e = '/' then (parseStringBody rest2).map (fun p => ('/' :: p.1, p.2))
        else if e = 'b' then (parseStringBody rest2).map (fun p => (Char.ofNat 8 :: p.1, p.2))
        else if e = 't' then (parseStringBody rest2).map (fun p => ('\t' :: p.1, p.2))
        else if e = 'n' then (parseStringBody rest2).map (fun p => ('\n' :: p.1, p.2))
        else if e = 'f' then (parseStringBody rest2).map (fun p => (Char.ofNat 12 :: p.1, p.2))
        else if e = 'r' then (parseStringBody rest2).map (fun p => ('\r' :: p.1, p.2))
        else if e = 'u' then
          match rest2 with
          | h1 :: h2 :: h3 :: h4 :: rest3 =>
            match fromHexDigit h1, fromHexDigit h2, fromHexDigit h3, fromHexDigit h4 with
            | some a, some b, some c3, some d =>
              (parseStringBody rest3).map
                (fun p => (Char.ofNat (((a * 16 + b) * 16 + c3) * 16 + d) :: p.1, p.2))
            | _, _, _, _ => none
          | _ => none
        else none
    else (parseStringBody rest).map (fun p => (c :: p.1, p.2))

/-- Serialize a string as a JSON string literal, quotes included. -/
def encodeJsonString (s : List Char) : List Char :=
  '\"' :: (escapeList s ++ ['\"'])

/-- Parse a JSON string literal, quotes included. -/
def parseJsonString : List Char → Option (List Char × List Char)
  | [] => none
  | c :: rest => if c = '\"' then parseStringBody rest else none

/-- Consume an expected literal text from the front of the input. -/
def dropLit : List Char → List Char → Option (List Char)
  | [], s => some s
  | _ :: _, [] => none
  | c :: cs, d :: ds => if c = d then dropLit cs ds else none

/-- Modelled from the spec: the matrix-sdk `Session` as serialized into a
restore token (its defining crate is not in the source sample). The
fields are the ones `guest_client` constructs (ios.rs 294-298):
access token, user id and device id, all serialized as JSON strings. -/
structure Session where
  access_token : String
  user_id : String
  device_id : String
deriving DecidableEq, Repr

/-- `RestoreToken`, ios.rs 69-74: the serde structure serialized by
`Client::restore_token` and deserialized by `login_with_token`, with the
fields in declaration order. -/
structure RestoreToken where
  is_guest : Bool
  homeurl : String
  session : Session
deriving DecidableEq, Repr

/-- Literal text opening the token object up to the `is_guest` value. -/
def litIsGuest : List Char := "\x7b\"is_guest\":".data

/-- Literal text between the `is_guest` value and the `homeurl` string. -/
def litHomeurl : List Char := ",\"homeurl\":".data

/-- Literal text between the `homeurl` string and the `session` object. -/
def litSession : List Char := ",\"session\":".data

/-- Literal text opening the session object up to the access token. -/
def litAccessToken : List Char := "\x7b\"access_token\":".data

/-- Literal text between the access token and the user id. -/
def litUserId : List Char := ",\"user_id\":".data

/-- Literal text between the user id and the device id. -/
def litDeviceId : List Char := ",\"device_id\":".data

/-- Literal closing brace of a JSON object. -/
def litClose : List Char := "\x7d".data

/-- JSON text of a boolean. -/
def encodeBool (b : Bool) : List Char :=
  if b then ("true").data else ("false").data

/-- Parse a JSON boolean. -/
def parseBool (s : List Char) : Option (Bool × List Char) :=
  match dropLit ("true".data) s with
  | some r => some (true, r)
  | none =>
    match dropLit ("false".data) s with
    | some r => some (false, r)
    | none => none

/-- serde_json serialization of a `Session`, fields in declaration
order, no interstitial whitespace (the compact form of serde_json, as
`serde_json::to_string` emits it). -/
def encodeSession (s : Session) : List Char :=
  litAccessToken ++ encodeJsonString s.access_token.data ++
  litUserId ++ encodeJsonString s.user_id.data ++
  litDeviceId ++ encodeJsonString s.device_id.data ++
  litClose

/-- serde_json deserialization of a `Session` from the canonical compact
form that `encodeSession` emits. -/
def decodeSession (s : List Char) : Option (Session × List Char) := do
  let s ← dropLit litAccessToken s
  let (a, s) ← parseJsonString s
  let s ← dropLit litUserId s
  let (u, s) ← parseJsonString s
  let s ← dropLit litDeviceId s
  let (d, s) ← parseJsonString s
  let s ← dropLit litClose s
  some (⟨String.mk a, String.mk u, String.mk d⟩, s)

/-- serde_json serialization of a `RestoreToken` (`serde_json::to_string`
in `Client::restore_token`, ios.rs 232-234): fields in declaration order,
compact form. -/
def encodeRestoreToken (t : RestoreToken) : List Char :=
  litIsGuest ++ encodeBool t.is_guest ++
  litHomeurl ++ encodeJsonString t.homeurl.data ++
  litSession ++ encodeSession t.session ++
  litClose

/-- serde_json deserialization of a `RestoreToken`
(`serde_json::from_str` in `login_with_token`, ios.rs 306) from the
canonical compact form that `encodeRestoreToken` emits; trailing input
is rejected as `from_str` does. -/
def decodeRestoreToken (s : List Char) : Option RestoreToken := do
  let s ← dropLit litIsGuest s
  let (g, s) ← parseBool s
  let s ← dropLit litHomeurl s
  let (h, s) ← parseJsonString s
  let s ← dropLit litSession s
  let (sess, s) ← decodeSession s
  let s ← dropLit litClose s
  if s.isEmpty then some ⟨g, String.mk h, sess⟩ else none

/-- Result of a call crossing the FFI boundary. `ok` and `err` are the
two sides of the Rust `Result` the caller receives (`err` is the single
generic `ClientError::Generic`-style failure carrying a message,
ios.rs 80-93); `fatal` is a Rust panic raised by `.expect(msg)`, which is
not a returned value at all. -/
inductive Outcome (α : Type) where
  | ok (a : α)
  | err (msg : String)
  | fatal (msg : String)
deriving DecidableEq, Repr

/-- Whether an outcome is the returned generic failure. -/
def Outcome.isErr {α : Type} : Outcome α → Bool
  | Outcome.err _ => true
  | _ => false

/-- Whether an outcome is a panic. -/
def Outcome.isFatal {α : Type} : Outcome α → Bool
  | Outcome.fatal _ => true
  | _ => false

/-- Whether an outcome is a success. -/
def Outcome.isOk {α : Type} : Outcome α → Bool
  | Outcome.ok _ => true
  | _ => false

/-- The pieces of a `Client` (ios.rs 63-67) that the restore-token flow
reads: the engine session (`client.session().await`, `none` when no
session is established), the homeserver URL (`client.homeserver().await`)
and the shared `ClientState`. -/
structure ClientModel where
  session : Option Session
  homeurl : String
  state : ClientState
deriving DecidableEq, Repr

/-- `Client::restore_token`, ios.rs 228-236: `.expect("Missing session")`
panics when no session is established; otherwise the snapshot of
is_guest, homeserver URL and session is serialized with serde_json. -/
def restore_token (c : ClientModel) : Outcome String :=
  match c.session with
  | none => Outcome.fatal ("Missing session")
  | some s =>
    Outcome.ok (String.mk (encodeRestoreToken ⟨c.state.is_guest, c.homeurl, s⟩))

/-- Outcomes of the external steps of a construction flow: URL parsing,
storage-directory creation inside `new_client_config` (ios.rs 39-49),
engine connection, and `restore_login`. -/
structure EngineEnv where
  urlParses : Bool
  mkdirOk : Bool
  connectOk : Bool
  restoreLoginOk : Bool
deriving DecidableEq, Repr

/-- `login_with_token`, ios.rs 305-316: deserialize the `RestoreToken`
(`?` returns the generic failure on malformed input), parse the embedded
homeserver URL, build the config, connect and `restore_login` with the
embedded session. On success the new client holds exactly the decoded
session, homeserver URL and is_guest flag. -/
def login_with_token (e : EngineEnv) (token : String) : Outcome ClientModel :=
  match decodeRestoreToken token.data with
  | none => Outcome.err ("malformed restore token")
  | some t =>
    if !e.urlParses then Outcome.err ("invalid homeserver url")
    else if !e.mkdirOk then Outcome.err ("could not create storage directory")
    else if !e.connectOk then Outcome.err ("could not connect")
    else if !e.restoreLoginOk then Outcome.err ("restore_login failed")
    else Outcome.ok ⟨some t.session, t.homeurl, ⟨t.is_guest, false, false, false⟩⟩

/-- The guest-registration response fields `guest_client` reads
(ios.rs 293-298): `access_token` and `device_id` are optional in the
wire type and unwrapped with `.expect(...)`. -/
structure RegisterResponse where
  access_token : Option String
  user_id : String
  device_id : Option String
deriving DecidableEq, Repr

/-- Outcomes of the external steps of `guest_client`: URL parsing,
directory creation, engine connection, the registration request
(`none` when the engine rejects it), and `restore_login`. -/
structure GuestEnv where
  urlParses : Bool
  mkdirOk : Bool
  connectOk : Bool
  registerResult : Option RegisterResponse
  restoreLoginOk : Bool
deriving DecidableEq, Repr

/-- `guest_client`, ios.rs 286-303, in source order: `Url::parse` (`?`),
`new_client_config` with its `fs::create_dir_all` (`?`),
`MatrixClient::new_with_config` (`?`), `client.register` (`?`), then
`register.access_token.expect("no access token given")` and
`register.device_id.clone().expect("device id is given by server")`
— panics, not returned errors — then `restore_login` (`?`) and the new
client with `is_guest(true)`. -/
def guest_client (e : GuestEnv) (homeurl : String) : Outcome ClientModel :=
  if !e.urlParses then Outcome.err ("invalid homeserver url")
  else if !e.mkdirOk then Outcome.err ("could not create storage directory")
  else if !e.connectOk then Outcome.err ("could not connect")
  else
    match e.registerResult with
    | none => Outcome.err ("registration rejected")
    | some resp =>
      match resp.access_token with
      | none => Outcome.fatal ("no access token given")
      | some tk =>
        match resp.device_id with
        | none => Outcome.fatal ("device id is given by server")
        | some dev =>
          if !e.restoreLoginOk then Outcome.err ("restore_login failed")
          else Outcome.ok ⟨some ⟨tk, resp.user_id, dev⟩, homeurl, ⟨true, false, false, false⟩⟩

/-- Condition under which the guest flow panics rather than returning a
failure: every fallible step before the `.expect` calls succeeded and the
registration response lacks the access token or the device id. -/
def guestFatalCond (e : GuestEnv) : Bool :=
  e.urlParses && e.mkdirOk && e.connectOk &&
    (match e.registerResult with
     | none => false
     | some resp => resp.access_token.isNone || resp.device_id.isNone)

/-- Condition under which the guest flow returns the single generic
failure value: a malformed URL, a failed directory creation, a failed
connection, a rejected registration, or a failed `restore_login` reached
with both expected response fields present. -/
def guestErrCond (e : GuestEnv) : Bool :=
  !e.urlParses || !e.mkdirOk || !e.connectOk ||
    (match e.registerResult with
     | none => true
     | some resp => resp.access_token.isSome && resp.device_id.isSome && !e.restoreLoginOk)

theorem dropLit_append (l r : List Char) : dropLit l (l ++ r) = some r := by
  induction l with
  | nil => simp [dropLit]
  | cons c cs ih => simp [dropLit, ih]

theorem fromHex_hex_all : ∀ n < 16, fromHexDigit (hexDigit n) = some n := by decide

theorem parseStringBody_escape (s r : List Char) :
    parseStringBody (escapeList s ++ '\"' :: r) = some (s, r) := by
  induction s generalizing r with
  | nil =>
    show parseStringBody ('\"' :: r) = some ([], r)
    rw [parseStringBody.eq_def]
    simp
  | cons c cs ih =>
    have step : escapeList (c :: cs) ++ '\"' :: r =
        escapeChar c ++ (escapeList cs ++ '\"' :: r) := by
      simp [escapeList]
    rw [step]
    unfold escapeChar
    split_ifs with h1 h2 h3 h4 h5 h6 h7 h8
    · subst h1; rw [List.cons_append, List.cons_append, List.nil_append,
        parseStringBody.eq_def]; simp [ih]
    · subst h2; rw [List.cons_append, List.cons_append, List.nil_append,
        parseStringBody.eq_def]; simp [ih]
    · subst h3; rw [List.cons_append, List.cons_append, List.nil_append,
        parseStringBody.eq_def]; simp [ih]
    · subst h4; rw [List.cons_append, List.cons_append, List.nil_append,
        parseStringBody.eq_def]; simp [ih]
    · subst h5; rw [List.cons_append, List.cons_append, List.nil_append,
        parseStringBody.eq_def]; simp [ih]
    · subst h6; rw [List.cons_append, List.cons_append, List.nil_append,
        parseStringBody.eq_def]; simp [ih]
    · subst h7; rw [List.cons_append, List.cons_append, List.nil_append,
        parseStringBody.eq_def]; simp [ih]
    · have hdiv : c.toNat / 16 < 16 := by omega
      have hmod : c.toNat % 16 < 16 := Nat.mod_lt _ (by norm_num)
      have e1 := fromHex_hex_all _ hdiv
      have e2 := fromHex_hex_all _ hmod
      have e0 : fromHexDigit '0' = some 0 := by decide
      have hchar : ((0 * 16 + 0) * 16 + c.toNat / 16) * 16 + c.toNat % 16 = c.toNat := by
        omega
      have hchar2 : c.toNat / 16 * 16 + c.toNat % 16 = c.toNat := by omega
      rw [parseStringBody.eq_def]
      simp [e0, e1, e2, ih, hchar, hchar2, Char.ofNat_toNat]
    · rw [List.cons_append, List.nil_append, parseStringBody.eq_def]
      simp [h1, h2, ih]

theorem parseJsonString_encode (s r : List Char) :
    parseJsonString (encodeJsonString s ++ r) = some (s, r) := by
  show parseJsonString ('\"' :: (escapeList s ++ ['\"']) ++ r) = some (s, r)
  rw [parseJsonString.eq_def]
  simp only [List.cons_append, List.append_assoc, List.singleton_append]
  simp [parseStringBody_escape]

theorem parseBool_encode (b : Bool) (r : List Char) :
    parseBool (encodeBool b ++ r) = some (b, r) := by
  have ht : "true".data = ['t', 'r', 'u', 'e'] := rfl
  have hf : "false".data = ['f', 'a', 'l', 's', 'e'] := rfl
  cases b
  · simp [encodeBool, parseBool, ht, hf, dropLit_append, dropLit]
  · simp [encodeBool, parseBool, ht, dropLit_append, dropLit]

theorem dropLit_self (l : List Char) : dropLit l l = some [] := by
  simpa using dropLit_append l []

theorem decodeSession_encode (s : Session) (r : List Char) :
    decodeSession (encodeSession s ++ r) = some (s, r) := by
  obtain ⟨a, u, d⟩ := s
  simp [decodeSession, encodeSession, List.append_assoc, dropLit_append,
    parseJsonString_encode]

theorem decodeRestoreToken_encode (t : RestoreToken) :
    decodeRestoreToken (encodeRestoreToken t) = some t := by
  obtain ⟨g, h, sess⟩ := t
  have base : decodeRestoreToken (encodeRestoreToken ⟨g, h, sess⟩ ++ []) = some ⟨g, h, sess⟩ := by
    simp [decodeRestoreToken, encodeRestoreToken, List.append_assoc, dropLit_append,
      parseBool_encode, parseJsonString_encode, decodeSession_encode, dropLit_self,
      List.isEmpty]
  simpa using base

/-- Helper: the generalized listener loop with the flag and delegate
always present delivers exactly the in-order decodable items. -/
theorem listenerRun_all_true {α β : Type} (decode : α → Option β)
    (flagAt delegateAt : Nat → Bool) (hf : ∀ n, flagAt n = true)
    (hd : ∀ n, delegateAt n = true) :
    ∀ (items : List α) (n : Nat),
      listenerRun decode flagAt delegateAt items n = items.filterMap decode := by
  intro items
  induction items with
  | nil => intro n; simp [listenerRun]
  | cons i rest ih =>
    intro n
    cases hdi : decode i <;>
      simp [listenerRun, hf n, hd n, ih, List.filterMap_cons, hdi]

/-- Helper: the length of a filterMap is the count of hits. -/
theorem length_filterMap_countP {α β : Type} (f : α → Option β) (l : List α) :
    (l.filterMap f).length = l.countP (fun a => (f a).isSome) := by
  induction l with
  | nil => simp
  | cons a l ih =>
    cases h : f a <;> simp [List.filterMap_cons, h, List.countP_cons, ih]

/-- Helper: once the flag reads false from iteration k on, the delivered
messages are those of the take-k run and at most k+1-j items are drained
from iteration j onward. -/
theorem listenerRunCount_stop {α β : Type} (decode : α → Option β)
    (flagAt delegateAt : Nat → Bool) (k : Nat)
    (hstop : ∀ n, k ≤ n → flagAt n = false) :
    ∀ (items : List α) (j : Nat),
      (listenerRunCount decode flagAt delegateAt items j).1 =
        (listenerRunCount decode flagAt delegateAt (items.take (k - j)) j).1 ∧
      (listenerRunCount decode flagAt delegateAt items j).2 ≤ k - j + 1 := by
  intro items
  induction items with
  | nil => intro j; constructor <;> simp [listenerRunCount]
  | cons i rest ih =>
    intro j
    by_cases hf : flagAt j = false
    · constructor
      · have h2 : (listenerRunCount decode flagAt delegateAt
            ((i :: rest).take (k - j)) j).1 = [] := by
          cases k - j with
          | zero => simp [listenerRunCount]
          | succ m => simp [listenerRunCount, hf]
        simp [listenerRunCount, hf, h2]
      · have h1 : (listenerRunCount decode flagAt delegateAt (i :: rest) j).2 = 1 := by
          simp [listenerRunCount, hf]
        omega
    · have hft : flagAt j = true := by revert hf; cases flagAt j <;> simp
      have hjk : j < k := by
        by_contra hge
        exact hf (hstop j (by omega))
      have hk : k - j = (k - (j + 1)) + 1 := by omega
      obtain ⟨ih1, ih2⟩ := ih (j + 1)
      rw [hk]
      constructor
      · simp [listenerRunCount, hft, ih1]
      · have hs : (listenerRunCount decode flagAt delegateAt (i :: rest) j).2 =
            (listenerRunCount decode flagAt delegateAt rest (j + 1)).2 + 1 := by
          simp [listenerRunCount, hft]
        omega

/-- C1. The claim states `Client::is_syncing` returns the `is_syncing`
field of `SessionState`; the code (ios.rs 219-221) returns the
`has_first_synced` field instead, contradicting its own doc comment
"Indication whether we are currently syncing". At the state reached after
a first cycle is mid-update (`has_first_synced = true`,
`is_syncing = false`) the accessor returns `true` although the
`is_syncing` field is `false`; in general it coincides with
`Client::has_first_synced` on every state. -/
theorem c1_is_syncing_reads_wrong_field :
    Client.is_syncing ⟨false, true, false, false⟩ = true ∧
    ClientState.is_syncing ⟨false, true, false, false⟩ = false ∧
    (∀ s : ClientState, Client.is_syncing s = Client.has_first_synced s) :=
  ⟨rfl, rfl, fun _ => rfl⟩

/-- C2. For every client handle holding an established engine session,
`restore_token` succeeds and the produced token decodes — with the same
serde_json deserialization `login_with_token` performs — to exactly the
is_guest flag, homeserver URL and session credentials held at encode
time; and `login_with_token` on that token (with the external steps
succeeding) builds a client from exactly those decoded fields. The token
is a fixed string, so the decode result cannot depend on client state
changes made after encoding. -/
theorem c2_restore_token_roundtrip (c : ClientModel) (s : Session)
    (h : c.session = some s) :
    ∃ tok : String, restore_token c = Outcome.ok tok ∧
      decodeRestoreToken tok.data = some ⟨c.state.is_guest, c.homeurl, s⟩ ∧
      ∀ e : EngineEnv, e.urlParses = true → e.mkdirOk = true →
        e.connectOk = true → e.restoreLoginOk = true →
        login_with_token e tok =
          Outcome.ok ⟨some s, c.homeurl, ⟨c.state.is_guest, false, false, false⟩⟩ := by
  refine ⟨String.mk (encodeRestoreToken ⟨c.state.is_guest, c.homeurl, s⟩), ?_, ?_, ?_⟩
  · simp [restore_token, h]
  · simpa using decodeRestoreToken_encode ⟨c.state.is_guest, c.homeurl, s⟩
  · intro e he1 he2 he3 he4
    have hd : decodeRestoreToken
        (String.mk (encodeRestoreToken ⟨c.state.is_guest, c.homeurl, s⟩)).data =
        some ⟨c.state.is_guest, c.homeurl, s⟩ := by
      simpa using decodeRestoreToken_encode ⟨c.state.is_guest, c.homeurl, s⟩
    simp [login_with_token, hd, he1, he2, he3, he4]

/-- Witness for C2 at a concrete client holding a session. -/
def witnessSession : Session :=
  ⟨"syt_access_token", "@alice:example.org", "DEVICEID"⟩

/-- Concrete client handle used by the C2 witness. -/
def witnessClient : ClientModel :=
  ⟨some witnessSession, "https://example.org/", ⟨true, false, false, false⟩⟩

/-- Witness instantiating C2 at `witnessClient`. -/
theorem c2_restore_token_roundtrip_witness :
    witnessClient.session = some witnessSession ∧
    ∃ tok : String, restore_token witnessClient = Outcome.ok tok ∧
      decodeRestoreToken tok.data =
        some ⟨witnessClient.state.is_guest, witnessClient.homeurl, witnessSession⟩ ∧
      ∀ e : EngineEnv, e.urlParses = true → e.mkdirOk = true →
        e.connectOk = true → e.restoreLoginOk = true →
        login_with_token e tok =
          Outcome.ok ⟨some witnessSession, witnessClient.homeurl,
            ⟨witnessClient.state.is_guest, false, false, false⟩⟩ :=
  ⟨rfl, c2_restore_token_roundtrip witnessClient witnessSession rfl⟩

/-- Concrete guest-flow environment in which every step up to
registration succeeds but the registration response carries no access
token. -/
def guestEnvNoToken : GuestEnv :=
  ⟨true, true, true, some ⟨none, "@guest:example.org", some ("GUESTDEV")⟩, true⟩

/-- C3 counterexample. The claim states every failure of a
client-construction flow or synchronous accessor is returned as the
single generic failure value and by no other failure mode; but when the
guest registration response lacks an access token, `guest_client`
(ios.rs 295) panics through `.expect("no access token given")` — a panic,
not a returned failure value. -/
theorem c3_counterexample_expect_panics :
    guest_client guestEnvNoToken ("https://example.org/") =
      Outcome.fatal ("no access token given") ∧
    (guest_client guestEnvNoToken ("https://example.org/")).isErr = false ∧
    restore_token ⟨none, "https://example.org/", ClientState.default⟩ =
      Outcome.fatal ("Missing session") ∧
    (restore_token ⟨none, "https://example.org/", ClientState.default⟩).isErr = false :=
  ⟨rfl, rfl, rfl, rfl⟩

/-- C3 amended. Malformed endpoint URL, storage-directory creation
failure, rejected credentials, rejected connection and failed
`restore_login` are returned as the single generic failure value; but a
missing access token or device id in the guest-registration response, and
`restore_token` called with no active session, abort by panic
(`.expect`) instead of returning a failure value, and `restore_token`
never returns a generic failure. -/
theorem c3_failure_mode_classification (e : GuestEnv) (hs : String) (c : ClientModel) :
    (guest_client e hs).isErr = guestErrCond e ∧
    (guest_client e hs).isFatal = guestFatalCond e ∧
    (restore_token c).isFatal = c.session.isNone ∧
    (restore_token c).isErr = false := by
  obtain ⟨u, m, k, reg, rl⟩ := e
  obtain ⟨cs, hu, st⟩ := c
  rcases reg with _ | ⟨a1, u1, d1⟩ <;> try rcases a1 with _ | a1
  all_goals try rcases d1 with _ | d1
  all_goals rcases cs with _ | s
  all_goals cases u <;> cases m <;> cases k <;> cases rl <;>
    exact ⟨rfl, rfl, rfl, rfl⟩

/-- C4. When the ListenerFlag is already true,
`start_live_event_listener` returns `None` and leaves the room state —
including the number of live listener tasks — unchanged; consequently
starting twice from an idle room spawns exactly one forwarding task and
the second call returns no handle. -/
theorem c4_double_start_guard (r r0 : RoomListenerState)
    (h : r.is_listening_to_live_events = true)
    (h0 : r0.is_listening_to_live_events = false) (ht : r0.activeTasks = 0) :
    start_live_event_listener r = (none, r) ∧
    (start_live_event_listener r0).1.isSome = true ∧
    (start_live_event_listener (start_live_event_listener r0).2).1 = none ∧
    (start_live_event_listener (start_live_event_listener r0).2).2 =
      (start_live_event_listener r0).2 ∧
    ((start_live_event_listener r0).2).activeTasks = 1 := by
  constructor
  · simp [start_live_event_listener, h]
  · simp [start_live_event_listener, h0, ht]

/-- Witness instantiating C4 at concrete room states. -/
theorem c4_double_start_guard_witness :
    start_live_event_listener ⟨true, 1⟩ = (none, ⟨true, 1⟩) ∧
    (start_live_event_listener ⟨false, 0⟩).1.isSome = true ∧
    (start_live_event_listener (start_live_event_listener ⟨false, 0⟩).2).1 = none ∧
    (start_live_event_listener (start_live_event_listener ⟨false, 0⟩).2).2 =
      (start_live_event_listener ⟨false, 0⟩).2 ∧
    ((start_live_event_listener ⟨false, 0⟩).2).activeTasks = 1 :=
  c4_double_start_guard ⟨true, 1⟩ ⟨false, 0⟩ rfl rfl rfl

/-- C5. With the flag and a registered delegate present at every
iteration, the listener task delivers exactly the in-order decodable
items of the finite forward stream: the delivered sequence is the
filterMap of the input, undecodable items are skipped with no error
surfacing (the loop has no failure channel), and the delegate call count
equals the number of decodable items. -/
theorem c5_order_preserving_filter {α β : Type} (decode : α → Option β)
    (flagAt delegateAt : Nat → Bool) (items : List α)
    (hf : ∀ n, flagAt n = true) (hd : ∀ n, delegateAt n = true) :
    listenerRun decode flagAt delegateAt items 0 = items.filterMap decode ∧
    (listenerRun decode flagAt delegateAt items 0).length =
      items.countP (fun i => (decode i).isSome) := by
  have h := listenerRun_all_true decode flagAt delegateAt hf hd items 0
  exact ⟨h, by rw [h, length_filterMap_countP]⟩

/-- Decoder used by concrete listener witnesses: even numbers decode,
odd ones are unrecognized. -/
def witnessDecode (n : Nat) : Option Nat :=
  if n % 2 = 0 then some (n / 2) else none

/-- Constantly-true sampling function for listener witnesses. -/
def alwaysOn (_ : Nat) : Bool := true

/-- Witness instantiating C5 on a concrete scripted stream. -/
theorem c5_order_preserving_filter_witness :
    listenerRun witnessDecode alwaysOn alwaysOn [1, 2, 3, 4] 0 =
      [1, 2, 3, 4].filterMap witnessDecode ∧
    (listenerRun witnessDecode alwaysOn alwaysOn [1, 2, 3, 4] 0).length =
      [1, 2, 3, 4].countP (fun i => (witnessDecode i).isSome) :=
  c5_order_preserving_filter witnessDecode alwaysOn alwaysOn [1, 2, 3, 4]
    (fun _ => rfl) (fun _ => rfl)

/-- C6. `has_first_synced` is monotone across every operation of the
system: once a run of operations has made it true, no further operations
ever reset it, so it transitions false to true at most once over the
lifetime of the handle. -/
theorem c6_has_first_synced_monotone (s : ClientState) (ops more : List ClientOp)
    (h : (runOps s ops).has_first_synced = true) :
    (runOps s (ops ++ more)).has_first_synced = true := by
  have key : ∀ (l : List ClientOp) (t : ClientState), t.has_first_synced = true →
      (runOps t l).has_first_synced = true := by
    intro l
    induction l with
    | nil => intro t ht; simpa [runOps] using ht
    | cons op rest ih =>
      intro t ht
      have hstep : (applyOp t op).has_first_synced = true := by
        cases op
        case syncCycleOp =>
          simp [applyOp, syncCycle, ht]
          split_ifs <;> simp [ht]
        all_goals simpa [applyOp] using ht
      simpa [runOps] using ih (applyOp t op) hstep
  have hsplit : runOps s (ops ++ more) = runOps (runOps s ops) more := by
    simp [runOps, List.foldl_append]
  rw [hsplit]
  exact key more _ h

/-- Witness instantiating C6 on a run that syncs once and then keeps
operating. -/
theorem c6_has_first_synced_monotone_witness :
    (runOps ClientState.default
      ([ClientOp.syncCycleOp] ++
        [ClientOp.isSyncingOp, ClientOp.syncCycleOp, ClientOp.restoreTokenOp])).has_first_synced
      = true :=
  c6_has_first_synced_monotone ClientState.default [ClientOp.syncCycleOp]
    [ClientOp.isSyncingOp, ClientOp.syncCycleOp, ClientOp.restoreTokenOp] (by decide)

/-- C7. Each sync cycle performs, in order: the protocol round-trip, then
(on its success) exactly one delegate notification before any state
write, then the guarded `has_first_synced` update (written only when
false, and true afterwards in all cases), and finally either
`is_syncing := false` with `Break` when `should_stop_syncing` holds or
`is_syncing` true with `Continue` otherwise; the event trace yields the
same state transition and loop control as the callback body
`syncCycle`. -/
theorem c7_sync_cycle_transition (s : ClientState) :
    (syncCycleTrace s).1.take 2 =
      [SyncEvent.syncRoundTrip, SyncEvent.notifyDelegate] ∧
    (syncCycleTrace s).1.count SyncEvent.notifyDelegate = 1 ∧
    (SyncEvent.writeHasFirstSynced true ∈ (syncCycleTrace s).1 ↔
      s.has_first_synced = false) ∧
    applyEvents s (syncCycleTrace s).1 =
      { s with has_first_synced := true, is_syncing := !s.should_stop_syncing } ∧
    (syncCycleTrace s).2 =
      (if s.should_stop_syncing then LoopCtrl.Break else LoopCtrl.Continue) ∧
    syncCycle s = (applyEvents s (syncCycleTrace s).1, (syncCycleTrace s).2) := by
  obtain ⟨g, f, y, p⟩ := s
  cases g <;> cases f <;> cases y <;> cases p <;> decide

/-- C8. If `stop_live_event_listener` takes effect so that every flag
poll from iteration k onward reads false, the listener delivers exactly
the messages of the first k stream items — no delegate invocation arises
from any later item — and drains at most one item beyond the k already
processed. -/
theorem c8_stop_latency_bound {α β : Type} (decode : α → Option β)
    (flagAt delegateAt : Nat → Bool) (k : Nat) (items : List α)
    (hstop : ∀ n, k ≤ n → flagAt n = false) :
    (listenerRunCount decode flagAt delegateAt items 0).1 =
      (listenerRunCount decode flagAt delegateAt (items.take k) 0).1 ∧
    (listenerRunCount decode flagAt delegateAt items 0).2 ≤ k + 1 := by
  have h := listenerRunCount_stop decode flagAt delegateAt k hstop items 0
  simpa using h

/-- Flag samples for the C8 witness: the stop is observed from the third
poll on. -/
def stopFromTwo (n : Nat) : Bool := decide (n < 2)

/-- Witness instantiating C8 on a concrete stream stopped after two
items. -/
theorem c8_stop_latency_bound_witness :
    (listenerRunCount witnessDecode stopFromTwo alwaysOn [10, 11, 12, 13, 14] 0).1 =
      (listenerRunCount witnessDecode stopFromTwo alwaysOn
        ([10, 11, 12, 13, 14].take 2) 0).1 ∧
    (listenerRunCount witnessDecode stopFromTwo alwaysOn [10, 11, 12, 13, 14] 0).2 ≤ 2 + 1 :=
  c8_stop_latency_bound witnessDecode stopFromTwo alwaysOn 2 [10, 11, 12, 13, 14]
    (fun n hn => by simp [stopFromTwo]; omega)

/-- C9. After `stop_live_event_listener` clears the flag, a subsequent
`start_live_event_listener` finds it false, sets it true, spawns a fresh
listener task and returns a new backward-stream handle rather than the
no-op `None`. -/
theorem c9_stop_then_restart (r : RoomListenerState) :
    (stop_live_event_listener r).is_listening_to_live_events = false ∧
    (start_live_event_listener (stop_live_event_listener r)).1 =
      some BackwardsStream.mk ∧
    (start_live_event_listener
        (stop_live_event_listener r)).2.is_listening_to_live_events = true ∧
    (start_live_event_listener (stop_live_event_listener r)).2.activeTasks =
      r.activeTasks + 1 := by
  simp [stop_live_event_listener, start_live_event_listener]

/-- C10. When the forward stream ends naturally while the flag is still
true, the exiting task leaves the flag set: afterwards no task is
consuming events, yet `start_live_event_listener` still returns `None`
and changes nothing — and keeps doing so, since the state is unchanged —
until `stop_live_event_listener` clears the flag, after which a start
succeeds again. -/
theorem c10_stream_end_wedges_flag (r : RoomListenerState)
    (hflag : r.is_listening_to_live_events = true) (htasks : r.activeTasks = 1) :
    (listener_task_stream_ended r).is_listening_to_live_events = true ∧
    (listener_task_stream_ended r).activeTasks = 0 ∧
    start_live_event_listener (listener_task_stream_ended r) =
      (none, listener_task_stream_ended r) ∧
    (start_live_event_listener
        (stop_live_event_listener (listener_task_stream_ended r))).1 =
      some BackwardsStream.mk := by
  simp [listener_task_stream_ended, stop_live_event_listener,
    start_live_event_listener, hflag, htasks]

/-- Witness instantiating C10 at a room with one running listener. -/
theorem c10_stream_end_wedges_flag_witness :
    (listener_task_stream_ended ⟨true, 1⟩).is_listening_to_live_events = true ∧
    (listener_task_stream_ended ⟨true, 1⟩).activeTasks = 0 ∧
    start_live_event_listener (listener_task_stream_ended ⟨true, 1⟩) =
      (none, listener_task_stream_ended ⟨true, 1⟩) ∧
    (start_live_event_listener
        (stop_live_event_listener (listener_task_stream_ended ⟨true, 1⟩))).1 =
      some BackwardsStream.mk :=
  c10_stream_end_wedges_flag ⟨true, 1⟩ rfl rfl
